import Mathlib

/-!
Formal model of `cvat/apps/iam/permissions.py`: the Open Policy Agent
permission classes, the RPN filter-token translation in
`OpenPolicyAgentPermission.filter`, and the aggregation in `PolicyEnforcer`.

Conventions of the embedding:
* `Option`/`Except Unit` model raised Python exceptions (`IndexError`,
  `KeyError`, `TypeError`, `AssertionError`, `AttributeError`, transport
  errors from `requests.post`): `none` / `.error ()` means the call raised.
* Django `Q` objects are modelled by the inductive `Q` below, with the
  truthiness of `django.utils.tree.Node.bool` (true iff the node has
  children) and the `combine` logic of `Q.__and__` / `Q.__or__`.
* `requests.post` is modelled by an oracle `String → Payload → Except Unit Bool`
  mapping (url, json payload) to the decoded boolean `result` field, or to a
  transport/shape error.
-/

/-- Values appearing in filter predicate tokens and in database records. -/
inductive Value
  | vInt (n : Int)
  | vBool (b : Bool)
  | vStr (s : String)
deriving DecidableEq

/-- A database record, as an attribute bag (the part of a model row a
filter predicate can look at). -/
abbrev Record := List (String × Value)

/-- Django `Q` objects as this module builds them: `Q(**token)` leaves
(a conjunction of equality constraints; `Q()` is `leaf []`) and the binary
AND/OR combinations produced by the `&` and `|` operators.  The module never
produces a negated `Q` node (that would require `operator.invert`, i.e. `~q`;
see `opNot` below for what it actually does). -/
inductive Q
  | leaf (kvs : List (String × Value))
  | qand (l r : Q)
  | qor (l r : Q)
deriving DecidableEq

/-- Truthiness of a `Q` object: `django.utils.tree.Node.bool` returns
`bool(self.children)`, so a leaf is truthy iff it has at least one
constraint, and a combined node (two children) is always truthy. -/
def Q.isTruthy : Q → Bool
  | .leaf kvs => !kvs.isEmpty
  | .qand _ _ => true
  | .qor _ _ => true

/-- Django `Q._combine(self, other, AND)` (reached from `self & other`):
an empty operand is dropped, otherwise a two-child AND node
`(self, other)` in that order. -/
def Q.combAnd (self other : Q) : Q :=
  if other.isTruthy = false then self
  else if self.isTruthy = false then other
  else .qand self other

/-- Django `Q._combine(self, other, OR)` (reached from `self | other`). -/
def Q.combOr (self other : Q) : Q :=
  if other.isTruthy = false then self
  else if self.isTruthy = false then other
  else .qor self other

/-- A record satisfies a `Q(**kvs)` leaf iff every keyword equality
constraint holds of the record. -/
def evalLeaf (kvs : List (String × Value)) (r : Record) : Bool :=
  kvs.all (fun kv => decide (r.lookup kv.1 = some kv.2))

/-- Evaluation of a `Q` tree against one record: the WHERE-clause
semantics the data store gives a composed filter expression. -/
def Q.eval : Q → Record → Bool
  | .leaf kvs, r => evalLeaf kvs r
  | .qand a b, r => a.eval r && b.eval r
  | .qor a b, r => a.eval r || b.eval r

/-- A value on the translation stack `qobjects`.  Besides `Q` objects the
stack can hold a raw Python `bool`, because `ops_dict` maps the token `~`
to `operator.not_`, whose result is `not bool(x)` — a `bool`, not a `Q`. -/
inductive QVal
  | q (t : Q)
  | b (v : Bool)
deriving DecidableEq

/-- Python `bool()` of a stack value. -/
def QVal.isTruthy : QVal → Bool
  | .q t => t.isTruthy
  | .b v => v

/-- `ops_dict['~'] = operator.not_`: logical negation of truthiness.
Its result is always a Python `bool`, never a `Q` object. -/
def opNot (v : QVal) : QVal := .b (!v.isTruthy)

/-- `ops_dict['&'] = operator.and_` applied to two stack values:
`q1 & q2` combines `Q` objects, `b1 & b2` is boolean AND, and a mixed
pair raises `TypeError` (modelled as `none`). -/
def opAnd : QVal → QVal → Option QVal
  | .q a, .q c => some (.q (a.combAnd c))
  | .b a, .b c => some (.b (a && c))
  | _, _ => none

/-- `ops_dict['|'] = operator.or_` applied to two stack values. -/
def opOr : QVal → QVal → Option QVal
  | .q a, .q c => some (.q (a.combOr c))
  | .b a, .b c => some (.b (a || c))
  | _, _ => none

/-- One element of the `result` array returned by the policy service on
the `/filter` endpoint: an operator string or a predicate object. -/
inductive FilterToken
  | op (s : String)
  | pred (kvs : List (String × Value))
deriving DecidableEq

/-- One iteration of the token loop in `OpenPolicyAgentPermission.filter`.
A predicate object pushes `Q(**token)`; a string token pops `val1`, and for
`~` pushes `operator.not_(val1)`, otherwise pops `val2` and pushes
`ops_dict[token](val1, val2)`.  `none` models a raised exception: pop on an
empty list (`IndexError`), an operator string outside `ops_dict`
(`KeyError`), or a `TypeError` from the operator. -/
def applyToken (stack : List QVal) : FilterToken → Option (List QVal)
  | .pred kvs => some (.q (.leaf kvs) :: stack)
  | .op s =>
    match stack with
    | [] => none
    | val1 :: rest =>
      if s = "~" then some (opNot val1 :: rest)
      else
        match rest with
        | [] => none
        | val2 :: rest2 =>
          if s = "&" then (opAnd val1 val2).map (· :: rest2)
          else if s = "|" then (opOr val1 val2).map (· :: rest2)
          else none

/-- The full token loop, threading the `qobjects` stack (head = top of
stack); an exception in any iteration aborts the whole translation. -/
def runTokens : List QVal → List FilterToken → Option (List QVal)
  | stack, [] => some stack
  | stack, t :: ts =>
    match applyToken stack t with
    | some s2 => runTokens s2 ts
    | none => none

/-- The value `qobjects[0]` that `filter` passes to `queryset.filter`:
after the loop, an empty stack gets `Q()` appended, a singleton stack is
used as is, and a longer stack fails the `assert len(qobjects) == 1`
(modelled as `none`). -/
def filterResult (tokens : List FilterToken) : Option QVal :=
  match runTokens [] tokens with
  | none => none
  | some [] => some (.q (.leaf []))
  | some [v] => some v
  | some (_ :: _ :: _) => none

/-- `queryset.filter(qv)` over an in-memory record set: a `Q` object keeps
the records satisfying it; passing a raw Python `bool` positionally raises
`TypeError` inside the query builder (modelled as `none`). -/
def applyFilter (qv : QVal) (qs : List Record) : Option (List Record) :=
  match qv with
  | .q t => some (qs.filter (fun r => t.eval r))
  | .b _ => none

/-- End-to-end `OpenPolicyAgentPermission.filter` on an already-fetched
token sequence: translate the tokens and apply the resulting value to the
queryset. -/
def filterQuerySet (tokens : List FilterToken) (qs : List Record) : Option (List Record) :=
  match filterResult tokens with
  | none => none
  | some qv => applyFilter qv qs

/-- The scenario token sequence from the specification:
`[{"owner_id": 7}, {"shared": true}, "|"]`. -/
def scenarioTokens : List FilterToken :=
  [.pred [("owner_id", .vInt 7)], .pred [("shared", .vBool true)], .op "|"]

/-- C2 (counterexample): on the scenario sequence the code pushes
`or_(val1, val2)` where `val1` is the first-popped (right) operand, so the
constructed node is `OR(shared=true, owner_id=7)` — the operands in the
opposite of the original left-to-right order, refuting the claimed
`OR(left, right)` shape. -/
theorem C2_counterexample :
    filterResult scenarioTokens =
      some (.q (.qor (.leaf [("shared", .vBool true)]) (.leaf [("owner_id", .vInt 7)]))) ∧
    Q.qor (.leaf [("shared", .vBool true)]) (.leaf [("owner_id", .vInt 7)]) ≠
      Q.qor (.leaf [("owner_id", .vInt 7)]) (.leaf [("shared", .vBool true)]) :=
  ⟨rfl, by decide⟩

/-- C2 (amended): consuming an AND/OR token pops the right operand first
(`val1`), then the left (`val2`), and pushes `op(val1, val2)` — the combined
node with the operands structurally swapped, `AND(right, left)` /
`OR(right, left)`.  Because AND and OR are commutative this is semantically
equivalent to `op(left, right)`, and in particular the scenario sequence
filters a record set down to exactly the records satisfying
`owner_id = 7 OR shared = true`. -/
theorem C2_amended (a b : Q) (ha : a.isTruthy = true) (hb : b.isTruthy = true)
    (rest : List QVal) :
    applyToken (QVal.q b :: QVal.q a :: rest) (.op "|") = some (.q (.qor b a) :: rest) ∧
    applyToken (QVal.q b :: QVal.q a :: rest) (.op "&") = some (.q (.qand b a) :: rest) ∧
    (∀ r : Record, (Q.qor b a).eval r = (a.eval r || b.eval r)) ∧
    (∀ r : Record, (Q.qand b a).eval r = (a.eval r && b.eval r)) ∧
    (∀ qs : List Record, filterQuerySet scenarioTokens qs =
      some (qs.filter (fun r =>
        evalLeaf [("owner_id", Value.vInt 7)] r || evalLeaf [("shared", Value.vBool true)] r))) := by
  refine ⟨?_, ?_, ?_, ?_, ?_⟩
  · simp [applyToken, opOr, Q.combOr, ha, hb]
  · simp [applyToken, opAnd, Q.combAnd, ha, hb]
  · intro r; simp [Q.eval, Bool.or_comm]
  · intro r; simp [Q.eval, Bool.and_comm]
  · intro qs
    show some (qs.filter fun r =>
      Q.eval (Q.qor (.leaf [("shared", .vBool true)]) (.leaf [("owner_id", .vInt 7)])) r) = _
    congr 1
    apply List.filter_congr
    intro r _
    simp [Q.eval, Bool.or_comm]

/-- C2 (amended, witness): the amended statement instantiated on two
concrete one-constraint leaves and the empty remainder of the stack. -/
theorem C2_amended_witness :
    applyToken [QVal.q (.leaf [("b", .vInt 2)]), QVal.q (.leaf [("a", .vInt 1)])] (.op "|")
      = some [.q (.qor (.leaf [("b", .vInt 2)]) (.leaf [("a", .vInt 1)]))] :=
  (C2_amended (.leaf [("a", .vInt 1)]) (.leaf [("b", .vInt 2)]) rfl rfl []).1

/-- The failing input for C3: a single atomic predicate followed by the
NOT operator token. -/
def notFailInput : List FilterToken := [.pred [("owner_id", .vInt 7)], .op "~"]

/-- C3 (code bug, evaluation at the failing input): `ops_dict` maps `~` to
`operator.not_`, which returns `not bool(q)` — the Python constant `False`
for any truthy `Q` — instead of the inverted predicate `~q`
(`operator.invert`).  The stack value is no longer a composable predicate:
passing it to `queryset.filter` raises, on any queryset, including one
holding a record the intended `NOT(owner_id=7)` predicate would accept. -/
theorem C3_code_eval :
    filterResult notFailInput = some (.b false) ∧
    filterQuerySet notFailInput [[("other_id", Value.vInt 3)]] = none ∧
    filterQuerySet notFailInput [] = none :=
  ⟨rfl, rfl, rfl⟩

/-- C4: a token sequence whose full consumption leaves two or more nodes on
the stack fails the `assert len(qobjects) == 1` — the translation yields no
value and the queryset is never filtered by a residual node. -/
theorem C4_multi_residual_errors (tokens : List FilterToken) (stack : List QVal)
    (h : runTokens [] tokens = some stack) (h2 : 2 ≤ stack.length) :
    filterResult tokens = none ∧ ∀ qs : List Record, filterQuerySet tokens qs = none := by
  have hres : filterResult tokens = none := by
    rcases stack with _ | ⟨a, _ | ⟨b, t⟩⟩
    · simp at h2
    · simp at h2
    · unfold filterResult
      rw [h]
  refine ⟨hres, fun qs => ?_⟩
  unfold filterQuerySet
  rw [hres]

/-- C4 (witness): two predicate tokens and no operator leave a two-node
stack, and the translation produces no output. -/
theorem C4_witness :
    filterResult [FilterToken.pred [("a", .vInt 1)], FilterToken.pred [("b", .vInt 2)]] = none :=
  (C4_multi_residual_errors [FilterToken.pred [("a", .vInt 1)], FilterToken.pred [("b", .vInt 2)]]
    [QVal.q (.leaf [("b", .vInt 2)]), QVal.q (.leaf [("a", .vInt 1)])] rfl (by decide)).1

/-- C8: the empty token sequence leaves an empty stack, `Q()` is appended,
and filtering by the empty `Q` keeps every record of the base result set. -/
theorem C8_empty_tokens_unrestricted (qs : List Record) :
    filterQuerySet [] qs = some qs := by
  show some (qs.filter fun r => Q.eval (Q.leaf []) r) = some qs
  congr 1
  have hp : (fun r : Record => Q.eval (Q.leaf []) r) = fun _ => true := rfl
  rw [hp, List.filter_true]

/-- The authenticated user on the request. -/
structure User where
  id : Int
deriving DecidableEq

/-- An organization model row (the fields this module reads). -/
structure Organization where
  id : Int
  ownerId : Int
deriving DecidableEq

/-- The membership record carried in `request.iam_context` (the module
only reads its `role`). -/
structure MembershipCtx where
  role : String
deriving DecidableEq

/-- The `iam_context` attached to the request by the IAM middleware.
`privilege` stands for `privilege.name` (the module reads nothing else
from the privilege object). -/
structure IamContext where
  privilege : String
  organization : Option Organization
  membership : Option MembershipCtx
deriving DecidableEq

/-- The incoming request, reduced to the attributes the module reads. -/
structure Request where
  user : User
  iam_context : IamContext
deriving DecidableEq

/-- The DRF view attributes the module reads: `basename`, `action` and
`detail`. -/
structure View where
  basename : String
  action : String
  detail : Bool
deriving DecidableEq

/-- The resolved target object, flattened to the attributes any of the
evaluators reads: `obj.id`, `obj.owner.id`, `obj.role`, `obj.user.id`. -/
structure Obj where
  id : Int
  ownerId : Int
  role : String
  userId : Int
deriving DecidableEq

/-- A JSON field that can be absent from the payload, present with value
`null`, or present with a value — the three states a Python dict entry
set to an `Optional` can be in. -/
inductive JsonOpt (α : Type)
  | absent
  | null
  | val (a : α)
deriving DecidableEq

/-- Translation of a Python `Optional` assigned to a dict key: the key is
present, with `null` for `None`. -/
def jsonOfOpt {α : Type} : Option α → JsonOpt α
  | Option.none => .null
  | some a => .val a

/-- The `organization` sub-object of the `auth` part of the payload. -/
structure AuthOrg where
  id : Int
  is_owner : Bool
  role : Option String
deriving DecidableEq

/-- The `auth` sub-object built by `OpenPolicyAgentPermission.__init__`. -/
structure Auth where
  userId : Int
  privilege : String
  organization : Option AuthOrg
deriving DecidableEq

/-- The evaluator-specific `resource` sub-object of the payload. -/
inductive Resource
  | user (id : Int)
  | org (id : Int) (is_owner : Bool) (ownerId : Int) (role : Option String)
  | membership (role : String) (userId : Int)
deriving DecidableEq

/-- The `user` sub-object `OrganizationPermission` adds to the payload. -/
structure UserExtra where
  num_resources : Nat
deriving DecidableEq

/-- The `input` payload POSTed to the policy service. -/
structure Payload where
  auth : Auth
  scope : JsonOpt String
  resource : JsonOpt Resource
  user : JsonOpt UserExtra
deriving DecidableEq

/-- The common payload built by `OpenPolicyAgentPermission.__init__`:
only the `auth` sub-object; `scope`, `resource` and `user` keys are not
yet present. -/
def basePayload (req : Request) : Payload :=
  { auth :=
      { userId := req.user.id
        privilege := req.iam_context.privilege
        organization := req.iam_context.organization.map (fun o =>
          { id := o.id
            is_owner := o.ownerId == req.user.id
            role := req.iam_context.membership.map (fun m => m.role) }) }
    scope := .absent
    resource := .absent
    user := .absent }

/-- An instantiated evaluator, reduced to its observable effect: the URL
it will POST to and the payload it has built. -/
structure PermInstance where
  url : String
  payload : Payload
deriving DecidableEq

/-- The `settings.IAM_OPA_DATA_URL` configuration value (an opaque base
URL; its concrete text is irrelevant to every claim). -/
def IAM_OPA_DATA_URL : String := "/opa"

/-- The external state the Django ORM supplies to
`OrganizationPermission.__init__`: the count of organizations owned by a
user, and the role of a user's membership in an organization (by org id
and user id), when such a membership row exists. -/
structure DB where
  orgCountByOwner : Int → Nat
  membershipRole : Int → Int → Option String

/-- Scope mapping of `ServerPermission`. -/
def ServerPermission.scopeMap : List (String × String) :=
  [("annotation_formats", "VIEW"), ("about", "VIEW"), ("plugins", "VIEW"),
   ("exception", "SEND_EXCEPTION"), ("logs", "SEND_LOGS"), ("share", "LIST_CONTENT")]

/-- The instance built by `ServerPermission.__init__`. -/
def ServerPermission.mkInst (req : Request) (view : View) : PermInstance :=
  { url := IAM_OPA_DATA_URL ++ "/server/allow"
    payload := { basePayload req with
      scope := jsonOfOpt (ServerPermission.scopeMap.lookup view.action) } }

/-- `ServerPermission.create`: applicable iff `view.basename == 'server'`. -/
def ServerPermission.create (req : Request) (view : View) (_ : Option Obj) :
    List PermInstance :=
  if view.basename = "server" then [ServerPermission.mkInst req view] else []

/-- Scope mapping of `UserPermission`. -/
def UserPermission.scopeMap : List (String × String) :=
  [("list", "LIST"), ("self", "VIEW_SELF"), ("retrieve", "VIEW")]

/-- The instance built by `UserPermission.__init__`; on a detail view the
`resource` key is set from `obj.id`, which raises `AttributeError` when
the object is `None`. -/
def UserPermission.mkInst (req : Request) (view : View) (obj : Option Obj) :
    Except Unit PermInstance :=
  let p1 := { basePayload req with
    scope := jsonOfOpt (UserPermission.scopeMap.lookup view.action) }
  if view.detail then
    match obj with
    | Option.none => .error ()
    | some o =>
      .ok { url := IAM_OPA_DATA_URL ++ "/users/allow"
            payload := { p1 with resource := .val (.user o.id) } }
  else .ok { url := IAM_OPA_DATA_URL ++ "/users/allow", payload := p1 }

/-- `UserPermission.create`: applicable iff `view.basename == 'user'`. -/
def UserPermission.create (req : Request) (view : View) (obj : Option Obj) :
    Except Unit (List PermInstance) :=
  if view.basename = "user" then
    match UserPermission.mkInst req view obj with
    | .error e => .error e
    | .ok inst => .ok [inst]
  else .ok []

/-- Scope mapping of `LambdaPermission`, keyed on (basename, action). -/
def LambdaPermission.scopeMap : List ((String × String) × String) :=
  [(("function", "list"), "LIST"), (("function", "retrieve"), "VIEW"),
   (("function", "call"), "CALL_ONLINE"), (("request", "create"), "CALL_OFFLINE"),
   (("request", "list"), "CALL_OFFLINE"), (("request", "retrieve"), "CALL_OFFLINE"),
   (("request", "destroy"), "CALL_OFFLINE")]

/-- The instance built by `LambdaPermission.__init__`. -/
def LambdaPermission.mkInst (req : Request) (view : View) : PermInstance :=
  { url := IAM_OPA_DATA_URL ++ "/lambda/allow"
    payload := { basePayload req with
      scope := jsonOfOpt (LambdaPermission.scopeMap.lookup (view.basename, view.action)) } }

/-- `LambdaPermission.create`: applicable iff the basename is `function`
or `request`. -/
def LambdaPermission.create (req : Request) (view : View) (_ : Option Obj) :
    List PermInstance :=
  if view.basename = "function" ∨ view.basename = "request" then
    [LambdaPermission.mkInst req view]
  else []

/-- Scope mapping of `OrganizationPermission`. -/
def OrganizationPermission.scopeMap : List (String × String) :=
  [("list", "LIST"), ("create", "CREATE"), ("destroy", "DELETE"),
   ("partial_update", "UPDATE"), ("retrieve", "VIEW")]

/-- `OrganizationPermission.resource`: `None` when the object is not
resolved, otherwise the organization attributes plus the caller's
membership role looked up in the data store. -/
def OrganizationPermission.resourceOf (db : DB) (req : Request) (obj : Option Obj) :
    Option Resource :=
  match obj with
  | Option.none => Option.none
  | some o =>
      some (.org o.id (o.ownerId == req.user.id) o.ownerId
        (db.membershipRole o.id req.user.id))

/-- The instance built by `OrganizationPermission.__init__`: scope, the
resource key on detail views, and the `user.num_resources` counter. -/
def OrganizationPermission.mkInst (db : DB) (req : Request) (view : View)
    (obj : Option Obj) : PermInstance :=
  let p1 := { basePayload req with
    scope := jsonOfOpt (OrganizationPermission.scopeMap.lookup view.action) }
  let p2 := if view.detail then
      { p1 with resource := jsonOfOpt (OrganizationPermission.resourceOf db req obj) }
    else p1
  { url := IAM_OPA_DATA_URL ++ "/organizations/allow"
    payload := { p2 with
      user := .val { num_resources := db.orgCountByOwner req.user.id } } }

/-- `OrganizationPermission.create`: applicable iff the basename is
`organization`. -/
def OrganizationPermission.create (db : DB) (req : Request) (view : View)
    (obj : Option Obj) : List PermInstance :=
  if view.basename = "organization" then
    [OrganizationPermission.mkInst db req view obj]
  else []

/-- Scope mapping of `MembershipPermission`. -/
def MembershipPermission.scopeMap : List (String × String) :=
  [("list", "LIST"), ("partial_update", "CHANGE_ROLE"), ("retrieve", "VIEW"),
   ("delete", "DELETE")]

/-- The instance built by `MembershipPermission.__init__`; the resource
property reads `obj.role` and `obj.user.id` unconditionally, raising
`AttributeError` on a detail view with no resolved object. -/
def MembershipPermission.mkInst (req : Request) (view : View) (obj : Option Obj) :
    Except Unit PermInstance :=
  let p1 := { basePayload req with
    scope := jsonOfOpt (MembershipPermission.scopeMap.lookup view.action) }
  if view.detail then
    match obj with
    | Option.none => .error ()
    | some o =>
      .ok { url := IAM_OPA_DATA_URL ++ "/memberships/allow"
            payload := { p1 with resource := .val (.membership o.role o.userId) } }
  else .ok { url := IAM_OPA_DATA_URL ++ "/memberships/allow", payload := p1 }

/-- `MembershipPermission.create`: applicable iff the basename is
`membership`. -/
def MembershipPermission.create (req : Request) (view : View) (obj : Option Obj) :
    Except Unit (List PermInstance) :=
  if view.basename = "membership" then
    match MembershipPermission.mkInst req view obj with
    | .error e => .error e
    | .ok inst => .ok [inst]
  else .ok []

/-- `InvitationPermission.create` returns the empty list for every
operation. -/
def InvitationPermission.create (_ : Request) (_ : View) (_ : Option Obj) :
    List PermInstance := []

/-- `CloudStoragePermission.create` returns the empty list for every
operation. -/
def CloudStoragePermission.create (_ : Request) (_ : View) (_ : Option Obj) :
    List PermInstance := []

/-- `ProjectPermission.create` returns the empty list for every
operation. -/
def ProjectPermission.create (_ : Request) (_ : View) (_ : Option Obj) :
    List PermInstance := []

/-- `TaskPermission.create` returns the empty list for every operation. -/
def TaskPermission.create (_ : Request) (_ : View) (_ : Option Obj) :
    List PermInstance := []

/-- `JobPermission.create` returns the empty list for every operation. -/
def JobPermission.create (_ : Request) (_ : View) (_ : Option Obj) :
    List PermInstance := []

/-- `CommentPermission.create` returns the empty list for every
operation. -/
def CommentPermission.create (_ : Request) (_ : View) (_ : Option Obj) :
    List PermInstance := []

/-- `IssuePermission.create` returns the empty list for every operation. -/
def IssuePermission.create (_ : Request) (_ : View) (_ : Option Obj) :
    List PermInstance := []

/-- The loop `for perm in OpenPolicyAgentPermission.__subclasses__():
permissions.extend(perm.create(...))`, in class-definition order.  An
`AttributeError` raised while a fallible constructor builds its payload
aborts the whole collection (and the first such error is the one raised:
`UserPermission` comes before `MembershipPermission`). -/
def allPermissions (db : DB) (req : Request) (view : View) (obj : Option Obj) :
    Except Unit (List PermInstance) :=
  match UserPermission.create req view obj with
  | .error e => .error e
  | .ok us =>
    match MembershipPermission.create req view obj with
    | .error e => .error e
    | .ok ms =>
      .ok (ServerPermission.create req view obj ++ us
        ++ LambdaPermission.create req view obj
        ++ OrganizationPermission.create db req view obj ++ ms
        ++ InvitationPermission.create req view obj
        ++ CloudStoragePermission.create req view obj
        ++ ProjectPermission.create req view obj
        ++ TaskPermission.create req view obj
        ++ JobPermission.create req view obj
        ++ CommentPermission.create req view obj
        ++ IssuePermission.create req view obj)

/-- The network oracle standing for `requests.post(url, json=payload)`
followed by `r.json()['result']`: `.ok b` is a well-formed boolean
response, `.error ()` a transport failure (timeout, connection error) or
a malformed response body. -/
abbrev Oracle := String → Payload → Except Unit Bool

/-- `OpenPolicyAgentPermission.__bool__` for one instantiated evaluator:
one POST of the instance's payload to its `/allow` URL. -/
def decideInstance (oracle : Oracle) (p : PermInstance) : Except Unit Bool :=
  oracle p.url p.payload

/-- Python `all(permissions)`: evaluates `bool(perm)` left to right, stops
at the first `False`, and lets any raised exception propagate. -/
def pyAll (oracle : Oracle) : List PermInstance → Except Unit Bool
  | [] => .ok true
  | p :: rest =>
    match decideInstance oracle p with
    | .error e => .error e
    | .ok true => pyAll oracle rest
    | .ok false => .ok false

/-- `PolicyEnforcer.check_permission`: collect every subclass's created
evaluators and aggregate their decisions with `all`. -/
def checkPermission (db : DB) (oracle : Oracle) (req : Request) (view : View)
    (obj : Option Obj) : Except Unit Bool :=
  match allPermissions db req view obj with
  | .error e => .error e
  | .ok ps => pyAll oracle ps

/-- `PolicyEnforcer.has_permission`: for a non-detail view run the full
check with `obj = None`; for a detail view return `True`
("has_object_permission will be called later"). -/
def hasPermission (db : DB) (oracle : Oracle) (req : Request) (view : View) :
    Except Unit Bool :=
  if !view.detail then checkPermission db oracle req view Option.none
  else .ok true

/-- `PolicyEnforcer.has_object_permission`: the full check with the
resolved object. -/
def hasObjectPermission (db : DB) (oracle : Oracle) (req : Request) (view : View)
    (obj : Obj) : Except Unit Bool :=
  checkPermission db oracle req view (some obj)

/-- A request fixture: admin user with id 3, no organization context. -/
def req0 : Request :=
  { user := { id := 3 }
    iam_context := { privilege := "admin", organization := Option.none, membership := Option.none } }

/-- A data-store fixture: no organizations owned, no membership rows. -/
def db0 : DB :=
  { orgCountByOwner := fun _ => 0, membershipRole := fun _ _ => Option.none }

/-- An oracle whose every call succeeds with `true`. -/
def oracleAllow : Oracle := fun _ _ => .ok true

/-- An oracle whose every call succeeds with `false`. -/
def oracleDeny : Oracle := fun _ _ => .ok false

/-- An oracle whose every call fails at the transport level. -/
def oracleFail : Oracle := fun _ _ => .error ()

/-- View fixture: the server `about` collection action. -/
def viewServerAbout : View := { basename := "server", action := "about", detail := false }

/-- View fixture: a detail action on the server viewset. -/
def viewServerAboutDetail : View := { basename := "server", action := "about", detail := true }

/-- View fixture: a server action with no entry in the scope mapping. -/
def viewServerUnmapped : View := { basename := "server", action := "destroy", detail := false }

/-- View fixture: the user `retrieve` detail action. -/
def viewUserDetail : View := { basename := "user", action := "retrieve", detail := true }

/-- View fixture: the user `list` collection action. -/
def viewUserList : View := { basename := "user", action := "list", detail := false }

/-- View fixture: the task `list` collection action. -/
def viewTaskList : View := { basename := "task", action := "list", detail := false }

/-- An object fixture. -/
def obj0 : Obj := { id := 1, ownerId := 2, role := "worker", userId := 3 }

/-- Python `all` over instantiated evaluators returns `ok true` exactly
when every evaluator's call returns `ok true`: a transport error or a
single `false` anywhere makes the aggregate something other than
`ok true`. -/
theorem pyAll_ok_true_iff (oracle : Oracle) (l : List PermInstance) :
    pyAll oracle l = .ok true ↔ ∀ p ∈ l, decideInstance oracle p = .ok true := by
  induction l with
  | nil => simp [pyAll]
  | cons p rest ih =>
    rw [List.forall_mem_cons]
    cases hd : decideInstance oracle p with
    | error e => simp [pyAll, hd, ih]
    | ok b => cases b <;> simp [pyAll, hd, ih]

/-- Python `all` on a one-element evaluator list is that evaluator's own
decision. -/
theorem pyAll_singleton (oracle : Oracle) (p : PermInstance) :
    pyAll oracle [p] = decideInstance oracle p := by
  unfold pyAll
  cases h : decideInstance oracle p with
  | error e => rfl
  | ok b => cases b <;> rfl

/-- C1: whenever the registry produces the evaluator list `ps` without
raising, the aggregated decision of `PolicyEnforcer.check_permission` is
allow (`ok true`) iff every evaluator's individual decision is allow; in
particular an empty evaluator list aggregates to allow by vacuous truth. -/
theorem C1_aggregate_allow_iff_all_allow (db : DB) (oracle : Oracle) (req : Request)
    (view : View) (obj : Option Obj) (ps : List PermInstance)
    (h : allPermissions db req view obj = .ok ps) :
    (checkPermission db oracle req view obj = .ok true ↔
      ∀ p ∈ ps, decideInstance oracle p = .ok true) ∧
    (ps = [] → checkPermission db oracle req view obj = .ok true) := by
  unfold checkPermission
  rw [h]
  refine ⟨pyAll_ok_true_iff oracle ps, ?_⟩
  intro hps
  subst hps
  rfl

/-- C1 (witness): one applicable evaluator (the server one), an oracle
answering allow — the aggregate is allow. -/
theorem C1_witness :
    checkPermission db0 oracleAllow req0 viewServerAbout Option.none = .ok true :=
  ((C1_aggregate_allow_iff_all_allow db0 oracleAllow req0 viewServerAbout Option.none
      [ServerPermission.mkInst req0 viewServerAbout] rfl).1).mpr (fun _ _ => rfl)

/-- C5 (counterexample): a transport failure on the decision-service call
makes `has_object_permission` raise (the module has no handler anywhere on
the path), rather than return the deny value `ok false` the claim
describes. -/
theorem C5_counterexample :
    hasObjectPermission db0 oracleFail req0 viewServerAboutDetail obj0 = .error () ∧
    (Except.error () : Except Unit Bool) ≠ .ok false :=
  ⟨rfl, fun hc => Except.noConfusion hc⟩

/-- C5 (amended): when at least one evaluator applies, a transport-level
failure of the decision-service call propagates out of the
object-permission check as an error — it is never converted into an
allow, but neither is it caught and converted into a deny return. -/
theorem C5_amended_fail_propagates (db : DB) (req : Request) (view : View) (obj : Obj)
    (ps : List PermInstance) (h : allPermissions db req view (some obj) = .ok ps)
    (hne : ps ≠ []) :
    hasObjectPermission db oracleFail req view obj = .error () := by
  unfold hasObjectPermission checkPermission
  rw [h]
  cases ps with
  | nil => exact absurd rfl hne
  | cons p rest => rfl

/-- C5 (amended, witness): the amended statement at the concrete server
detail view. -/
theorem C5_amended_witness :
    hasObjectPermission db0 oracleFail req0 viewServerAboutDetail obj0 = .error () :=
  C5_amended_fail_propagates db0 req0 viewServerAboutDetail obj0
    [ServerPermission.mkInst req0 viewServerAboutDetail] rfl (List.cons_ne_nil _ _)

/-- C6 (counterexample): on a server action with no scope mapping
(`destroy`), the evaluator is still created — the registry returns one
evaluator, not zero — and the aggregate follows the policy service's
answer for the `scope: null` payload: a denying service makes the gate
deny, where the claim says the evaluator abstains and the outcome is
unchanged (allow, as no other evaluator applies). -/
theorem C6_counterexample :
    Except.map List.length (allPermissions db0 req0 viewServerUnmapped Option.none) = .ok 1 ∧
    checkPermission db0 oracleDeny req0 viewServerUnmapped Option.none = .ok false :=
  ⟨rfl, rfl⟩

/-- C6 (amended): for a server-viewset action with no entry in the scope
mapping, the evaluator is created anyway with `scope: null` in its
payload, one decision-service call is made, and the gate's outcome is
exactly that call's result — the evaluator does not abstain. -/
theorem C6_amended_unmapped_still_calls (db : DB) (oracle : Oracle) (req : Request)
    (a : String) (h : ServerPermission.scopeMap.lookup a = Option.none) :
    checkPermission db oracle req { basename := "server", action := a, detail := false }
        Option.none
      = oracle (IAM_OPA_DATA_URL ++ "/server/allow")
          { basePayload req with scope := .null } := by
  have hinst : allPermissions db req { basename := "server", action := a, detail := false }
      Option.none
      = .ok [{ url := IAM_OPA_DATA_URL ++ "/server/allow"
               payload := { basePayload req with scope := .null } }] := by
    simp [allPermissions, UserPermission.create, MembershipPermission.create,
      ServerPermission.create, ServerPermission.mkInst, LambdaPermission.create,
      OrganizationPermission.create, InvitationPermission.create,
      CloudStoragePermission.create, ProjectPermission.create, TaskPermission.create,
      JobPermission.create, CommentPermission.create, IssuePermission.create, h, jsonOfOpt]
  unfold checkPermission
  rw [hinst]
  exact pyAll_singleton oracle _

/-- C6 (amended, witness): the amended statement at the unmapped action
`destroy`, against the always-deny oracle. -/
theorem C6_amended_witness :
    checkPermission db0 oracleDeny req0 viewServerUnmapped Option.none
      = oracleDeny (IAM_OPA_DATA_URL ++ "/server/allow")
          { basePayload req0 with scope := .null } :=
  C6_amended_unmapped_still_calls db0 oracleDeny req0 "destroy" rfl

/-- C9: for a detail-level operation the framework hook `has_permission`
returns `True` without consulting the data store or making any
decision-service call (the result is `ok true` for every oracle, even the
always-failing one), and the full aggregation runs only in
`has_object_permission`, with the resolved object supplied. -/
theorem C9_detail_provisional_then_aggregate (db : DB) (oracle : Oracle) (req : Request)
    (view : View) (obj : Obj) (h : view.detail = true) :
    hasPermission db oracle req view = .ok true ∧
    hasObjectPermission db oracle req view obj
      = checkPermission db oracle req view (some obj) := by
  constructor
  · unfold hasPermission
    rw [h]
    rfl
  · rfl

/-- C9 (witness): the detail statement at the concrete user retrieve view,
with the always-failing oracle on the provisional half. -/
theorem C9_witness :
    hasPermission db0 oracleFail req0 viewUserDetail = .ok true ∧
    hasObjectPermission db0 oracleFail req0 viewUserDetail obj0
      = checkPermission db0 oracleFail req0 viewUserDetail (some obj0) :=
  C9_detail_provisional_then_aggregate db0 oracleFail req0 viewUserDetail obj0 rfl

/-- C10: for the resource kinds whose create methods return the empty
list (projects, tasks, jobs, comments, issues, invitations, cloud
storages) no other evaluator is applicable either, so the registry yields
zero evaluators and the gate allows for every oracle — in particular for
the always-failing one, showing no policy-service call is made. -/
theorem C10_empty_registry_allows (db : DB) (oracle : Oracle) (req : Request)
    (view : View) (obj : Option Obj)
    (h : view.basename ∈ ["project", "task", "job", "comment", "issue",
      "invitation", "cloudstorage"]) :
    allPermissions db req view obj = .ok [] ∧
    checkPermission db oracle req view obj = .ok true := by
  have hb : view.basename = "project" ∨ view.basename = "task" ∨ view.basename = "job"
      ∨ view.basename = "comment" ∨ view.basename = "issue"
      ∨ view.basename = "invitation" ∨ view.basename = "cloudstorage" := by
    simpa using h
  have hall : allPermissions db req view obj = .ok [] := by
    rcases hb with h' | h' | h' | h' | h' | h' | h' <;>
      simp [allPermissions, UserPermission.create, MembershipPermission.create,
        ServerPermission.create, LambdaPermission.create, OrganizationPermission.create,
        InvitationPermission.create, CloudStoragePermission.create,
        ProjectPermission.create, TaskPermission.create, JobPermission.create,
        CommentPermission.create, IssuePermission.create, h']
  refine ⟨hall, ?_⟩
  unfold checkPermission
  rw [hall]
  rfl

/-- C10 (witness): the task list view, with the always-failing oracle —
no evaluator, no call, allow. -/
theorem C10_witness :
    allPermissions db0 req0 viewTaskList Option.none = .ok [] ∧
    checkPermission db0 oracleFail req0 viewTaskList Option.none = .ok true :=
  C10_empty_registry_allows db0 oracleFail req0 viewTaskList Option.none (by simp [viewTaskList])

/-- The request `OpenPolicyAgentPermission.filter` sends before reading
tokens: the instance's URL with `/allow` replaced by `/filter`, and the
instance's own payload, passed unchanged. -/
def filterRequest (p : PermInstance) : String × Payload :=
  (p.url.replace "/allow" "/filter", p.payload)

/-- Modelled from the spec: the payload the specification says the filter
variant sends — the same payload as the decision path, minus the
resource-level fields that only matter for single-object checks. -/
def specFilterPayload (p : Payload) : Payload := { p with resource := .absent }

/-- An object fixture for the user detail view. -/
def obj5 : Obj := { id := 5, ownerId := 0, role := "worker", userId := 5 }

/-- The evaluator `UserPermission` builds on the user retrieve detail view
for `obj5`: its payload carries the resource field. -/
def userInst5 : PermInstance :=
  { url := IAM_OPA_DATA_URL ++ "/users/allow"
    payload := { basePayload req0 with scope := .val "VIEW", resource := .val (.user 5) } }

/-- C7 (counterexample): on a detail-level user evaluator the payload the
filter path posts is the decision payload verbatim — still carrying the
resource field — and so differs from the claimed resource-stripped
payload. -/
theorem C7_counterexample :
    UserPermission.create req0 viewUserDetail (some obj5) = .ok [userInst5] ∧
    (filterRequest userInst5).2 ≠ specFilterPayload userInst5.payload :=
  ⟨rfl, by decide⟩

/-- The evaluator `UserPermission` builds on the user list view. -/
def userInstList : PermInstance :=
  { url := IAM_OPA_DATA_URL ++ "/users/allow"
    payload := { basePayload req0 with scope := .val "LIST" } }

/-- C7 (amended): the filter path posts the evaluator's payload unchanged
to the `/filter` variant of its URL; it coincides with the
resource-stripped payload of the specification exactly because
collection-level operations (the ones that use the filter path) never set
the resource field in the first place — no stripping happens. -/
theorem C7_amended_payload_unchanged (req : Request) (view : View) (obj : Option Obj)
    (inst : PermInstance) (h : UserPermission.mkInst req view obj = .ok inst)
    (hd : view.detail = false) :
    (filterRequest inst).2 = inst.payload ∧
    (filterRequest inst).2 = specFilterPayload inst.payload ∧
    (filterRequest inst).1 = inst.url.replace "/allow" "/filter" := by
  refine ⟨rfl, ?_, rfl⟩
  unfold UserPermission.mkInst at h
  rw [hd] at h
  rw [if_neg (by decide : ¬(false = true))] at h
  injection h with h3
  subst h3
  rfl

/-- C7 (amended, witness): the amended statement at the concrete user
list view. -/
theorem C7_amended_witness :
    (filterRequest userInstList).2 = specFilterPayload userInstList.payload :=
  (C7_amended_payload_unchanged req0 viewUserList Option.none userInstList rfl rfl).2.1
